import Mathlib

/-!
Verification of the sync core of the `dpkiller` collaborative pad.

The definitions below are a shallow embedding of the TypeScript source:
the room snapshot model (`types.ts`), the last-writer-wins `merge` of
`RoomView` (part_003), the remote-update handlers `onContentUpdate`,
`onMessagesUpdate` (part_005), `onRoomUpdate` (part_004) and the
`subscribeSupabase` callback (part_005), the persistence payload builders
of `supabaseService.ts` / `syncService.ts`, the debounced-save
fingerprint check of `RoomSyncChannel.scheduleSave` / `saveToServer`,
the `hashRoom` own-update fingerprint, and the failure path of
`streamAIResponse` (`geminiService.ts`) together with the chat flow of
`handleSendMessage`.
-/

/-- Message roles, from `MessageRole` in `types.ts`. -/
inductive MessageRole where
  | user
  | model
  | system
deriving DecidableEq, Repr

/-- One chat turn, from `ChatMessage` in `types.ts`.  The optional TS
fields `isStreaming?`, `senderId?`, `senderLabel?` are modelled with
their falsy defaults (`false`, `""`), which is how the code reads them. -/
structure ChatMessage where
  id : String
  role : MessageRole
  text : String
  timestamp : Nat
  isStreaming : Bool := false
  senderId : String := ""
  senderLabel : String := ""
deriving DecidableEq, Repr

/-- A room snapshot, from `RoomData` in `types.ts`.  `lastEditor` is the
optional `{ id, label }` pair. -/
structure RoomData where
  id : String
  content : String
  messages : List ChatMessage
  updatedAt : Nat
  lastEditor : Option (String × String) := none
deriving DecidableEq, Repr

/-- Last-writer-wins merge from `RoomView` (part_003, lines 38-41):
`incoming.updatedAt > local.updatedAt ? incoming : local`.  The TS null
guard `if (!incoming) return local` is outside the `RoomData` type (the
subscription callback already filters null payloads). -/
def merge (localRoom incoming : RoomData) : RoomData :=
  if incoming.updatedAt > localRoom.updatedAt then incoming else localRoom

/-- Local snapshot used in the tie counterexample. -/
def tieLocal : RoomData :=
  { id := "r", content := "local text", messages := [], updatedAt := 100 }

/-- Incoming snapshot with the same `updatedAt` but different content. -/
def tieIncoming : RoomData :=
  { id := "r", content := "remote text", messages := [], updatedAt := 100 }

/-- C1 counterexample: with exactly equal `updatedAt` values the merge
returns the local snapshot, not the incoming one, so the claim that the
remote snapshot wins ties is false at this input. -/
theorem merge_tie_not_incoming : merge tieLocal tieIncoming ≠ tieIncoming := by
  decide

/-- C1 (amended): on an exact `updatedAt` tie the merge returns the
local snapshot; the incoming snapshot is returned only on a strictly
greater timestamp. -/
theorem merge_tie_favors_local (localRoom incoming : RoomData)
    (h : localRoom.updatedAt = incoming.updatedAt) :
    merge localRoom incoming = localRoom := by
  unfold merge
  rw [h]
  simp

/-- Witness for `merge_tie_favors_local` at the concrete tie snapshots. -/
theorem merge_tie_favors_local_witness :
    tieLocal.updatedAt = tieIncoming.updatedAt ∧
      merge tieLocal tieIncoming = tieLocal :=
  ⟨by decide, merge_tie_favors_local tieLocal tieIncoming (by decide)⟩

/-- C3: for snapshots with strictly ordered timestamps the merge is
deterministic and order-independent: whichever side the later snapshot
arrives on, it wins. -/
theorem merge_lww_deterministic (A B : RoomData)
    (h : A.updatedAt < B.updatedAt) :
    merge A B = B ∧ merge B A = B := by
  unfold merge
  constructor
  · simp [h]
  · have h2 : ¬ A.updatedAt > B.updatedAt := Nat.not_lt.mpr (Nat.le_of_lt h)
    simp [h2]

/-- Snapshot with the earlier timestamp for the C3 witness. -/
def earlierRoom : RoomData :=
  { id := "r", content := "foo", messages := [], updatedAt := 100 }

/-- Snapshot with the later timestamp for the C3 witness. -/
def laterRoom : RoomData :=
  { id := "r", content := "bar", messages := [], updatedAt := 105 }

/-- Witness for `merge_lww_deterministic` on the 100/105 scenario of the
spec (`"foo"` at 100, `"bar"` at 105 merge to `"bar"` both ways). -/
theorem merge_lww_deterministic_witness :
    earlierRoom.updatedAt < laterRoom.updatedAt ∧
      (merge earlierRoom laterRoom = laterRoom ∧
        merge laterRoom earlierRoom = laterRoom) :=
  ⟨by decide, merge_lww_deterministic earlierRoom laterRoom (by decide)⟩

/-- Broadcast content handler from `RoomView` (part_005, lines 95-105):
the incoming content is applied only when the local client is not
typing; while typing the update is skipped.  (`setLastEditor` touches a
separate display state, not the snapshot.) -/
def onContentUpdate (isTyping : Bool) (st : RoomData) (content : String) :
    RoomData :=
  if !isTyping then { st with content := content } else st

/-- Broadcast messages handler from `RoomView` (part_005, lines 107-121):
if the local snapshot holds a streaming AI message, the incoming list is
filtered to its non-streaming messages and the local streaming message
is appended; otherwise the incoming list replaces the local one.  The
handler never consults the typing flag. -/
def onMessagesUpdate (st : RoomData) (messages : List ChatMessage) :
    RoomData :=
  match st.messages.find? (fun m => m.isStreaming && m.senderId == "ai") with
  | some ourStreamingMsg =>
      { st with
          messages := messages.filter (fun m => !m.isStreaming)
            ++ [ourStreamingMsg] }
  | none => { st with messages := messages }

/-- Store-change handler from `RoomView` (part_004, lines 378-405,
`onRoomUpdate` with `isRemote = true`): while typing the whole update is
skipped; otherwise the incoming room replaces the local one, with the
local streaming message (any sender) spliced back in when present. -/
def onRoomUpdate (isTyping : Bool) (st : RoomData) (incomingRoom : RoomData) :
    RoomData :=
  if !isTyping then
    match st.messages.find? (fun m => m.isStreaming) with
    | some ourStreamingMsg =>
        { incomingRoom with
            messages := incomingRoom.messages.filter (fun m => !m.isStreaming)
              ++ [ourStreamingMsg] }
    | none => incomingRoom
  else st

/-- Store-change callback from `RoomView` (part_005, lines 551-563,
the `subscribeSupabase` subscription): while typing the whole incoming
snapshot is dropped; otherwise it replaces the local one wholesale. -/
def applyStoreChange (isTyping : Bool) (st : RoomData) (incoming : RoomData) :
    RoomData :=
  if !isTyping then incoming else st

/-- An incoming remote update, tagged with the path it arrives on:
`broadcastContent` / `broadcastMessages` are the `RoomSyncChannel`
broadcast events, `storeChangeRoom` is the part_004 postgres-change
path, `storeChangeFull` is the part_005 `subscribeSupabase` path, and
`storeChangeDispatch` is the part_005 channel's postgres-change fallback
that feeds the full row through both broadcast handlers
(`syncService.ts`, lines 170-195). -/
inductive RemoteEvent where
  | broadcastContent (content : String)
  | broadcastMessages (messages : List ChatMessage)
  | storeChangeRoom (incoming : RoomData)
  | storeChangeFull (incoming : RoomData)
  | storeChangeDispatch (incoming : RoomData)
deriving DecidableEq, Repr

/-- Dispatch of one incoming remote update to the handler the source
wires it to, given the current typing flag. -/
def applyRemoteEvent (isTyping : Bool) (st : RoomData) :
    RemoteEvent → RoomData
  | .broadcastContent c => onContentUpdate isTyping st c
  | .broadcastMessages ms => onMessagesUpdate st ms
  | .storeChangeRoom inc => onRoomUpdate isTyping st inc
  | .storeChangeFull inc => applyStoreChange isTyping st inc
  | .storeChangeDispatch inc =>
      onMessagesUpdate (onContentUpdate isTyping st inc.content) inc.messages

/-- While typing, the broadcast content handler drops the update. -/
theorem onContentUpdate_typing (st : RoomData) (c : String) :
    onContentUpdate true st c = st := rfl

/-- The broadcast messages handler only replaces the message list; the
content field of the snapshot is untouched. -/
theorem onMessagesUpdate_content (st : RoomData) (ms : List ChatMessage) :
    (onMessagesUpdate st ms).content = st.content := by
  unfold onMessagesUpdate
  split <;> rfl

/-- While typing, the part_004 store-change handler drops the whole
update. -/
theorem onRoomUpdate_typing (st : RoomData) (inc : RoomData) :
    onRoomUpdate true st inc = st := rfl

/-- While typing, the part_005 store-change callback drops the whole
update. -/
theorem applyStoreChange_typing (st : RoomData) (inc : RoomData) :
    applyStoreChange true st inc = st := rfl

/-- One remote update received while typing leaves the content field
untouched, whichever path it arrives on. -/
theorem applyRemoteEvent_typing_content (st : RoomData) (ev : RemoteEvent) :
    (applyRemoteEvent true st ev).content = st.content := by
  cases ev with
  | broadcastContent c =>
      rw [applyRemoteEvent, onContentUpdate_typing]
  | broadcastMessages ms =>
      rw [applyRemoteEvent, onMessagesUpdate_content]
  | storeChangeRoom inc =>
      rw [applyRemoteEvent, onRoomUpdate_typing]
  | storeChangeFull inc =>
      rw [applyRemoteEvent, applyStoreChange_typing]
  | storeChangeDispatch inc =>
      rw [applyRemoteEvent, onMessagesUpdate_content, onContentUpdate_typing]

/-- C2: while `isTyping` is true, any sequence of incoming remote
updates — broadcast or store-change — leaves `localSnapshot.content`
exactly as the local client last typed it; only the typing-expiry timer
(which clears the flag) can end the suppression. -/
theorem typing_suppresses_remote_content (st : RoomData)
    (evs : List RemoteEvent) :
    (evs.foldl (applyRemoteEvent true) st).content = st.content := by
  induction evs generalizing st with
  | nil => rfl
  | cons ev evs ih =>
      rw [List.foldl_cons, ih (applyRemoteEvent true st ev),
        applyRemoteEvent_typing_content]

/-- Local snapshot of a client that is typing, for the C4
counterexample. -/
def typingLocal : RoomData :=
  { id := "r", content := "draft", messages := [], updatedAt := 50 }

/-- Incoming chat message carried by the store-change update. -/
def incomingChatMsg : ChatMessage :=
  { id := "u1", role := .user, text := "hi", timestamp := 55,
    senderId := "peer", senderLabel := "Peer" }

/-- Incoming store-change snapshot holding the new chat message. -/
def typingIncoming : RoomData :=
  { id := "r", content := "draft", messages := [incomingChatMsg],
    updatedAt := 60 }

/-- C4 counterexample: while typing, the store-change paths do not merge
the incoming chat message — the handlers drop the whole update, so the
new message is absent from the local list afterwards. -/
theorem storeChange_drops_messages_while_typing :
    incomingChatMsg ∈ typingIncoming.messages ∧
      incomingChatMsg ∉ (onRoomUpdate true typingLocal typingIncoming).messages ∧
      incomingChatMsg ∉ (applyStoreChange true typingLocal typingIncoming).messages := by
  decide

/-- C4 (amended): incoming chat messages are still merged while typing
only on the broadcast messages path, which never consults the typing
flag; the store-change paths of part_004 (`onRoomUpdate`) and part_005
(`subscribeSupabase` callback) suppress the entire update while typing,
chat messages included. -/
theorem typing_suppression_per_path (b : Bool) (st : RoomData)
    (ms : List ChatMessage) (inc : RoomData) :
    applyRemoteEvent b st (.broadcastMessages ms) = onMessagesUpdate st ms ∧
      onRoomUpdate true st inc = st ∧
      applyStoreChange true st inc = st :=
  ⟨rfl, rfl, rfl⟩

/-- Local in-flight streaming AI message, id `"m2"`. -/
def streamingM2 : ChatMessage :=
  { id := "m2", role := .model, text := "partial answ", timestamp := 70,
    isStreaming := true, senderId := "ai", senderLabel := "AI" }

/-- Finalized remote copy of the same message id `"m2"`. -/
def finalizedM2 : ChatMessage :=
  { id := "m2", role := .model, text := "Hello!", timestamp := 70,
    isStreaming := false, senderId := "ai", senderLabel := "AI" }

/-- Local snapshot holding the in-flight streaming message. -/
def streamingLocal : RoomData :=
  { id := "r", content := "note", messages := [streamingM2], updatedAt := 70 }

/-- C5 counterexample: when the incoming list carries the finalized copy
of the very message the local client is streaming, the handler does not
replace the streaming copy with it — it appends the streaming copy after
the finalized one, so both survive. -/
theorem streaming_finalized_not_replaced :
    (onMessagesUpdate streamingLocal [finalizedM2]).messages
        = [finalizedM2, streamingM2] ∧
      streamingM2 ≠ finalizedM2 ∧ streamingM2.isStreaming = true := by
  decide

/-- C5 (amended): a local in-flight streaming message always survives a
remote merge — it is spliced back unconditionally, on the broadcast
messages path (streaming AI messages) and on the part_004 store-change
path (any streaming message) alike; a finalized same-id copy in the
incoming snapshot does not replace it but is retained alongside it. -/
theorem streaming_message_survives (st : RoomData) (ms : List ChatMessage)
    (inc : RoomData) (m0 m1 : ChatMessage)
    (h0 : st.messages.find? (fun m => m.isStreaming && m.senderId == "ai")
        = some m0)
    (h1 : st.messages.find? (fun m => m.isStreaming) = some m1) :
    m0 ∈ (onMessagesUpdate st ms).messages ∧
      m1 ∈ (onRoomUpdate false st inc).messages := by
  constructor
  · unfold onMessagesUpdate
    rw [h0]
    simp
  · unfold onRoomUpdate
    rw [h1]
    simp

/-- Witness for `streaming_message_survives` at the concrete streaming
snapshot. -/
theorem streaming_message_survives_witness :
    streamingLocal.messages.find?
        (fun m => m.isStreaming && m.senderId == "ai") = some streamingM2 ∧
      streamingLocal.messages.find? (fun m => m.isStreaming)
        = some streamingM2 ∧
      (streamingM2 ∈ (onMessagesUpdate streamingLocal [finalizedM2]).messages ∧
        streamingM2 ∈ (onRoomUpdate false streamingLocal typingIncoming).messages) :=
  ⟨by decide, by decide,
    streaming_message_survives streamingLocal [finalizedM2] typingIncoming
      streamingM2 streamingM2 (by decide) (by decide)⟩

/-- C6: evaluating the message merge at the failing input — a local
streaming message whose finalized copy arrives in the remote list —
shows the resulting list carries the id `"m2"` twice, violating the
message-id uniqueness invariant (updates were meant to replace by id,
not append a duplicate). -/
theorem merge_produces_duplicate_ids :
    ((onMessagesUpdate streamingLocal [finalizedM2]).messages.map
        (fun m => m.id)) = ["m2", "m2"] ∧
      ¬ ((onMessagesUpdate streamingLocal [finalizedM2]).messages.map
        (fun m => m.id)).Nodup := by
  decide

/-- Payload persisted by `updateRoom` in `supabaseService.ts` (first
variant, lines 47-55): the snapshot is restamped with the clock read at
write time (`{ ...room, updatedAt: Date.now() }`). -/
def updateRoom_payload (room : RoomData) (now : Nat) : RoomData :=
  { room with updatedAt := now }

/-- Payload persisted by `upsertRoom` in `supabaseService.ts` (second
variant, lines 144-157): the snapshot is upserted exactly as the caller
supplied it; the write never reads the clock (the `now` argument stands
for the write time the claim refers to, which the code ignores). -/
def upsertRoom_payload (room : RoomData) (_now : Nat) : RoomData :=
  room

/-- Row columns written by `upsertRoom` in `syncService.ts`
(lines 57-75): only `id`, `content` and `messages` are sent in the
upsert; `updatedAt` is not part of the write at all. -/
structure RoomRowPatch where
  id : String
  content : String
  messages : List ChatMessage
deriving DecidableEq, Repr

/-- Column extraction performed by the `syncService.ts` upsert. -/
def sync_upsertRoom_columns (room : RoomData) : RoomRowPatch :=
  { id := room.id, content := room.content, messages := room.messages }

/-- Pending snapshot built by `RoomSyncChannel.scheduleSave`
(`syncService.ts`, lines 300-305) before the debounce timer runs: the
caller stamps `updatedAt` and `lastEditor` here.  The `saveToServer`
payload of part_005 (lines 660-664) has the identical shape. -/
def scheduleSave_pending (room : RoomData) (clientId clientLabel : String)
    (now : Nat) : RoomData :=
  { room with updatedAt := now, lastEditor := some (clientId, clientLabel) }

/-- Snapshot carrying a stale `updatedAt` for the C7 counterexample. -/
def staleRoom : RoomData :=
  { id := "r", content := "c", messages := [], updatedAt := 5 }

/-- C7 counterexample: a write through `upsertRoom` at time 100 persists
the caller's stale `updatedAt = 5` unchanged, and the `syncService`
upsert writes the same columns whatever `updatedAt` holds — so not every
persisting write stamps `updatedAt` with the time of the write. -/
theorem upsert_keeps_stale_updatedAt :
    (upsertRoom_payload staleRoom 100).updatedAt = 5 ∧ (5 : Nat) ≠ 100 ∧
      sync_upsertRoom_columns staleRoom
        = sync_upsertRoom_columns (updateRoom_payload staleRoom 100) := by
  decide

/-- C7 (amended): only `updateRoom` (and the callers `scheduleSave` /
`saveToServer`, which build the payload) stamp `updatedAt` with the
write-time clock; `upsertRoom` in `supabaseService.ts` persists the
caller-supplied snapshot unchanged, and `upsertRoom` in `syncService.ts`
omits `updatedAt` from the written columns entirely, so the stored
copy's freshness rests on the caller stamping before the write. -/
theorem persisted_updatedAt_stamping (room : RoomData)
    (cid clbl : String) (now : Nat) :
    (updateRoom_payload room now).updatedAt = now ∧
      upsertRoom_payload room now = room ∧
      sync_upsertRoom_columns { room with updatedAt := now }
        = sync_upsertRoom_columns room ∧
      (scheduleSave_pending room cid clbl now).updatedAt = now :=
  ⟨rfl, rfl, rfl, rfl⟩

/-- String form of `MessageRole`, matching the TS enum values. -/
def roleString : MessageRole → String
  | .user => "user"
  | .model => "model"
  | .system => "system"

/-- Canonical string form of one message, modelling `JSON.stringify` of
a `ChatMessage`.  The code only ever compares these strings for
equality, so the exact JSON syntax is immaterial; field order and
separators are fixed as in the serialized record. -/
def encodeMessage (m : ChatMessage) : String :=
  m.id ++ ";" ++ roleString m.role ++ ";" ++ m.text ++ ";"
    ++ toString m.timestamp ++ ";" ++ (if m.isStreaming then "t" else "f")
    ++ ";" ++ m.senderId ++ ";" ++ m.senderLabel

/-- Canonical string form of a message list (`JSON.stringify(messages)`
in the source). -/
def encodeMessages (ms : List ChatMessage) : String :=
  String.intercalate "," (ms.map encodeMessage)

/-- Mutable fields of the broadcast-variant `RoomSyncChannel`
(`syncService.ts`, lines 106-109) that the debounced save reads and
writes. -/
structure SyncChannelState where
  pendingRoom : Option RoomData
  lastSavedContent : String
  lastSavedMessages : String
deriving DecidableEq, Repr

/-- Body of the debounce timer armed by `RoomSyncChannel.scheduleSave`
(`syncService.ts`, lines 313-332): with no pending snapshot nothing
happens; when the pending snapshot's fingerprint — its content together
with its stringified message list — equals the last successfully
persisted one, no write is issued and the state is untouched; otherwise
the pending snapshot is upserted and, only when that succeeds, the
last-saved fingerprint is advanced.  The returned `Option RoomData` is
the store write performed, if any. -/
def fireScheduledSave (st : SyncChannelState) (upsertSucceeds : Bool) :
    SyncChannelState × Option RoomData :=
  match st.pendingRoom with
  | none => (st, none)
  | some pending =>
      if pending.content = st.lastSavedContent
          ∧ encodeMessages pending.messages = st.lastSavedMessages then
        (st, none)
      else if upsertSucceeds then
        ({ st with
            lastSavedContent := pending.content
            lastSavedMessages := encodeMessages pending.messages },
          some pending)
      else (st, some pending)

/-- C8: the debounced save is a no-op exactly when the pending
snapshot's fingerprint equals the last persisted fingerprint — no store
write happens and the channel state is left unchanged — and a write is
issued if and only if the fingerprint differs. -/
theorem fingerprint_noop_iff (st : SyncChannelState) (pending : RoomData)
    (ok : Bool) (h : st.pendingRoom = some pending) :
    ((fireScheduledSave st ok).2 = none ↔
        (pending.content = st.lastSavedContent ∧
          encodeMessages pending.messages = st.lastSavedMessages)) ∧
      ((pending.content = st.lastSavedContent ∧
          encodeMessages pending.messages = st.lastSavedMessages) →
        fireScheduledSave st ok = (st, none)) := by
  by_cases hp : (pending.content = st.lastSavedContent ∧
      encodeMessages pending.messages = st.lastSavedMessages)
  · refine ⟨?_, fun _ => ?_⟩ <;> simp [fireScheduledSave, h, hp]
  · refine ⟨?_, fun hcontra => absurd hcontra hp⟩
    cases ok <;> simp [fireScheduledSave, h, hp]

/-- Pending snapshot whose fingerprint matches the last persisted one. -/
def unchangedPending : RoomData :=
  { id := "r", content := "same text", messages := [incomingChatMsg],
    updatedAt := 90 }

/-- Channel state in which `unchangedPending` is pending and its
fingerprint equals the last persisted fingerprint. -/
def noopChannelState : SyncChannelState :=
  { pendingRoom := some unchangedPending,
    lastSavedContent := "same text",
    lastSavedMessages := encodeMessages [incomingChatMsg] }

/-- Witness for `fingerprint_noop_iff` at the concrete no-op state. -/
theorem fingerprint_noop_iff_witness :
    noopChannelState.pendingRoom = some unchangedPending ∧
      fireScheduledSave noopChannelState true = (noopChannelState, none) :=
  ⟨rfl,
    (fingerprint_noop_iff noopChannelState unchangedPending true rfl).2
      ⟨rfl, rfl⟩⟩

/-- Id of the last message of a snapshot, as the `hashRoom` expression
`room.messages[room.messages.length - 1]?.id || ''` computes it: the
empty string when the list is empty (and an empty id also yields the
empty string through the JS `||`, which coincides with taking the id
itself). -/
def lastMessageId (room : RoomData) : String :=
  ((room.messages.getLast?).map (fun m => m.id)).getD ""

/-- Fingerprint from `RoomSyncChannel.hashRoom` (`syncService.ts`, lines
480-482): content, message count and last-message id joined with a bar. -/
def hashRoom (room : RoomData) : String :=
  room.content ++ "|" ++ toString room.messages.length ++ "|"
    ++ lastMessageId room

/-- Own-update skip predicate of the postgres-changes handler
(`syncService.ts`, lines 517-531): the incoming row is skipped when its
hash equals the hash of the snapshot this channel last saved and a save
is in flight. -/
def skipOwnUpdate (lastSavedHash : String) (isSaving : Bool)
    (newData : RoomData) : Bool :=
  (hashRoom newData == lastSavedHash) && isSaving

/-- C10: `hashRoom` depends only on the content, the message count and
the last-message id; two snapshots agreeing on those three values hash
identically — whatever their message texts or streaming flags — and the
own-update skip check therefore treats them the same. -/
theorem hashRoom_congruence (r1 r2 : RoomData) (lastHash : String)
    (saving : Bool)
    (hc : r1.content = r2.content)
    (hn : r1.messages.length = r2.messages.length)
    (hl : lastMessageId r1 = lastMessageId r2) :
    hashRoom r1 = hashRoom r2 ∧
      skipOwnUpdate lastHash saving r1 = skipOwnUpdate lastHash saving r2 := by
  have hh : hashRoom r1 = hashRoom r2 := by
    unfold hashRoom
    rw [hc, hn, hl]
  exact ⟨hh, by unfold skipOwnUpdate; rw [hh]⟩

/-- Finalized message of the first C10 twin snapshot. -/
def twinMsgA : ChatMessage :=
  { id := "m1", role := .model, text := "one", timestamp := 1 }

/-- Message of the second C10 twin: same id, different text and flag. -/
def twinMsgB : ChatMessage :=
  { id := "m1", role := .model, text := "two", timestamp := 2,
    isStreaming := true }

/-- Snapshot with one finalized message, for the C10 witness. -/
def hashTwinA : RoomData :=
  { id := "r", content := "c", messages := [twinMsgA], updatedAt := 1 }

/-- Snapshot agreeing with `hashTwinA` on content, count and last id but
with a different message text and streaming flag. -/
def hashTwinB : RoomData :=
  { id := "r", content := "c", messages := [twinMsgB], updatedAt := 9 }

/-- Witness for `hashRoom_congruence` on the two distinct twins. -/
theorem hashRoom_congruence_witness :
    (hashTwinA.content = hashTwinB.content ∧
        hashTwinA.messages.length = hashTwinB.messages.length ∧
        lastMessageId hashTwinA = lastMessageId hashTwinB ∧
        hashTwinA ≠ hashTwinB) ∧
      (hashRoom hashTwinA = hashRoom hashTwinB ∧
        skipOwnUpdate "h" true hashTwinA = skipOwnUpdate "h" true hashTwinB) :=
  ⟨by decide,
    hashRoom_congruence hashTwinA hashTwinB "h" true (by decide) (by decide)
      (by decide)⟩

/-- Test that the second character list starts with the first. -/
def charsStartWith : List Char → List Char → Bool
  | [], _ => true
  | _ :: _, [] => false
  | c :: cs, d :: ds => c == d && charsStartWith cs ds

/-- Substring containment over character lists. -/
def charsContain (needle : List Char) : List Char → Bool
  | [] => needle.isEmpty
  | d :: ds => charsStartWith needle (d :: ds) || charsContain needle ds

/-- JS `hay.includes(needle)`, as the `catch` of `streamAIResponse` uses
it on the thrown error's message. -/
def strIncludes (hay needle : String) : Bool :=
  charsContain needle.data hay.data

/-- Error string chosen by the `catch` of `streamAIResponse`
(`geminiService.ts`, lines 66-81) from the presence of the API key and
the thrown error's message: every branch is a human-readable in-chat
sentence. -/
def errorTextFor (apiKeyPresent : Bool) (errMsg : String) : String :=
  if !apiKeyPresent then
    "Error: Missing API Key. Please check VITE_API_KEY in your .env file."
  else if strIncludes errMsg "429" then
    "Error: AI quota exceeded. Please try again later."
  else if strIncludes errMsg "403" then
    "Error: API Key invalid or restricted."
  else "Error: Unable to reach AI service."

/-- Cumulative texts passed to `onChunk` while the stream runs
(`geminiService.ts`, lines 55-62): each non-empty chunk text is appended
to `fullText` and the running concatenation is reported; empty chunks
are skipped. -/
def cumulativeEmits (acc : String) : List String → List String
  | [] => []
  | p :: ps =>
      if p = "" then cumulativeEmits acc ps
      else (acc ++ p) :: cumulativeEmits (acc ++ p) ps

/-- Outcome of driving the underlying model stream: it either completes
after yielding the chunk texts, or throws with an error message after
yielding a prefix of them (covering missing key, auth, quota and network
failures alike — every throw lands in the same `catch`). -/
inductive AIStreamOutcome where
  | success (pieces : List String)
  | failure (pieces : List String) (errMsg : String)
deriving DecidableEq, Repr

/-- Shallow embedding of `streamAIResponse` (`geminiService.ts`): the
result pairs the list of `onChunk` calls made with the returned final
text.  On success the cumulative concatenations are emitted and the
accumulated full text returned; on a throw the `catch` (lines 66-81)
emits the chosen error string as one final `onChunk` call and returns
that same string — no exception escapes, which the embedding reflects by
being a total function. -/
def streamAIResponse (apiKeyPresent : Bool) :
    AIStreamOutcome → List String × String
  | .success pieces =>
      (cumulativeEmits "" pieces, String.join pieces)
  | .failure pieces errMsg =>
      (cumulativeEmits "" pieces ++ [errorTextFor apiKeyPresent errMsg],
        errorTextFor apiKeyPresent errMsg)

/-- Per-chunk update of `handleSendMessage` (part_005, lines 756-764):
the message carrying the placeholder id gets its text replaced by the
cumulative chunk text. -/
def applyChunk (aiMsgId : String) (chunkText : String)
    (msgs : List ChatMessage) : List ChatMessage :=
  msgs.map (fun m =>
    if m.id == aiMsgId then { m with text := chunkText } else m)

/-- Finalization step of `handleSendMessage` (part_005, lines 770-778):
the placeholder's `isStreaming` flag is switched off. -/
def finalizeAI (aiMsgId : String) (msgs : List ChatMessage) :
    List ChatMessage :=
  msgs.map (fun m =>
    if m.id == aiMsgId then { m with isStreaming := false } else m)

/-- Placeholder assistant message appended before streaming (part_005,
lines 738-747). -/
def placeholderAiMsg (aiMsgId : String) (now : Nat) : ChatMessage :=
  { id := aiMsgId, role := .model, text := "", timestamp := now,
    isStreaming := true, senderId := "ai", senderLabel := "AI" }

/-- Message-lifecycle portion of `handleSendMessage` (part_005, lines
718-778): append the user message, append the streaming placeholder,
apply every `onChunk` update the stream makes, then finalize.  The
result is the `finalData` snapshot handed to `saveToServer`. -/
def handleSendMessage_run (data : RoomData) (userMsg : ChatMessage)
    (aiMsgId : String) (now : Nat) (apiKeyPresent : Bool)
    (outcome : AIStreamOutcome) : RoomData :=
  let withUserMsg := { data with messages := data.messages ++ [userMsg] }
  let withPlaceholder := { withUserMsg with
    messages := withUserMsg.messages ++ [placeholderAiMsg aiMsgId now] }
  let emitted := (streamAIResponse apiKeyPresent outcome).1
  let streamed := emitted.foldl
    (fun msgs c => applyChunk aiMsgId c msgs) withPlaceholder.messages
  { withPlaceholder with messages := finalizeAI aiMsgId streamed }

/-- Mapping a pointwise-identity function over a list is the identity. -/
theorem list_map_id_of {α : Type} (f : α → α) (l : List α)
    (h : ∀ m ∈ l, f m = m) : l.map f = l := by
  induction l with
  | nil => rfl
  | cons x xs ih =>
      simp only [List.map_cons]
      rw [h x (List.mem_cons_self x xs),
        ih (fun m hm => h m (List.mem_cons_of_mem x hm))]

/-- A chunk update leaves alien-id messages alone and rewrites the text
of the trailing placeholder. -/
theorem applyChunk_concat (i c : String) (ms : List ChatMessage)
    (p : ChatMessage) (hms : ∀ m ∈ ms, (m.id == i) = false)
    (hp : (p.id == i) = true) :
    applyChunk i c (ms ++ [p]) = ms ++ [{ p with text := c }] := by
  unfold applyChunk
  rw [List.map_append]
  congr 1
  · exact list_map_id_of _ ms (fun m hm => by simp [hms m hm])
  · simp only [List.map_cons, List.map_nil, hp, if_true]

/-- Folding the chunk updates over the whole emission list rewrites the
placeholder's text to the last emitted chunk (`foldl (fun _ c => c)`
computes exactly that) and touches nothing else. -/
theorem foldl_applyChunk (i : String) (ms : List ChatMessage)
    (hms : ∀ m ∈ ms, (m.id == i) = false) :
    ∀ (cs : List String) (p : ChatMessage), (p.id == i) = true →
      cs.foldl (fun msgs c => applyChunk i c msgs) (ms ++ [p])
        = ms ++ [{ p with text := cs.foldl (fun _ c => c) p.text }] := by
  intro cs
  induction cs with
  | nil => intro p _; rfl
  | cons c cs ih =>
      intro p hp
      rw [List.foldl_cons, applyChunk_concat i c ms p hms hp,
        ih { p with text := c } hp]
      rfl

/-- Finalization leaves alien-id messages alone and clears the trailing
placeholder's streaming flag. -/
theorem finalizeAI_concat (i : String) (ms : List ChatMessage)
    (q : ChatMessage) (hms : ∀ m ∈ ms, (m.id == i) = false)
    (hq : (q.id == i) = true) :
    finalizeAI i (ms ++ [q]) = ms ++ [{ q with isStreaming := false }] := by
  unfold finalizeAI
  rw [List.map_append]
  congr 1
  · exact list_map_id_of _ ms (fun m hm => by simp [hms m hm])
  · simp only [List.map_cons, List.map_nil, hq, if_true]

/-- C9: every failure of the AI collaborator (missing key, auth, quota,
network — any thrown error) is absorbed: `streamAIResponse` returns the
chosen human-readable error string as the final completion text with that
same string delivered as the last `onChunk` call, and the chat flow still
finalizes the placeholder — the `finalData` handed to the save is the
original transcript plus the user message plus the assistant message
carrying the error text with `isStreaming = false`. -/
theorem ai_failure_completes_lifecycle (data : RoomData)
    (userMsg : ChatMessage) (aiMsgId : String) (now : Nat) (k : Bool)
    (errMsg : String) (pieces : List String)
    (h1 : ∀ m ∈ data.messages, m.id ≠ aiMsgId)
    (h2 : userMsg.id ≠ aiMsgId) :
    ((streamAIResponse k (.failure pieces errMsg)).1).getLast?
        = some (errorTextFor k errMsg) ∧
      (streamAIResponse k (.failure pieces errMsg)).2
        = errorTextFor k errMsg ∧
      handleSendMessage_run data userMsg aiMsgId now k
          (.failure pieces errMsg)
        = { data with
            messages := data.messages ++ [userMsg,
              { id := aiMsgId, role := .model,
                text := errorTextFor k errMsg, timestamp := now,
                isStreaming := false, senderId := "ai",
                senderLabel := "AI" }] } := by
  have hms : ∀ m ∈ data.messages ++ [userMsg], (m.id == aiMsgId) = false := by
    intro m hm
    rcases List.mem_append.mp hm with hmem | hmem
    · exact beq_eq_false_iff_ne.mpr (h1 m hmem)
    · rw [List.mem_singleton.mp hmem]
      exact beq_eq_false_iff_ne.mpr h2
  have hp : ((placeholderAiMsg aiMsgId now).id == aiMsgId) = true := by
    simp [placeholderAiMsg]
  refine ⟨by simp [streamAIResponse], rfl, ?_⟩
  unfold handleSendMessage_run
  simp only [streamAIResponse]
  rw [foldl_applyChunk aiMsgId (data.messages ++ [userMsg]) hms
      (cumulativeEmits "" pieces ++ [errorTextFor k errMsg])
      (placeholderAiMsg aiMsgId now) hp,
    finalizeAI_concat aiMsgId (data.messages ++ [userMsg]) _ hms
      (by simp [placeholderAiMsg]),
    List.foldl_append]
  simp [placeholderAiMsg, List.append_assoc]

/-- Welcome message of the C9 witness room. -/
def welcomeMsg : ChatMessage :=
  { id := "welcome-msg", role := .model, text := "Hello.", timestamp := 1,
    senderId := "ai", senderLabel := "AI" }

/-- Room state before the C9 witness chat send. -/
def chatRoom : RoomData :=
  { id := "r", content := "doc", messages := [welcomeMsg], updatedAt := 1 }

/-- User message of the C9 witness chat send. -/
def sentUserMsg : ChatMessage :=
  { id := "100", role := .user, text := "hi", timestamp := 100,
    senderId := "me", senderLabel := "Guest" }

/-- Witness for `ai_failure_completes_lifecycle` on a quota failure
thrown after one successful chunk. -/
theorem ai_failure_completes_lifecycle_witness :
    ((∀ m ∈ chatRoom.messages, m.id ≠ "101") ∧ sentUserMsg.id ≠ "101") ∧
      (((streamAIResponse true (.failure ["He"] "429 quota")).1).getLast?
          = some (errorTextFor true "429 quota") ∧
        (streamAIResponse true (.failure ["He"] "429 quota")).2
          = errorTextFor true "429 quota" ∧
        handleSendMessage_run chatRoom sentUserMsg "101" 100 true
            (.failure ["He"] "429 quota")
          = { chatRoom with
              messages := chatRoom.messages ++ [sentUserMsg,
                { id := "101", role := .model,
                  text := errorTextFor true "429 quota", timestamp := 100,
                  isStreaming := false, senderId := "ai",
                  senderLabel := "AI" }] }) :=
  ⟨⟨by decide, by decide⟩,
    ai_failure_completes_lifecycle chatRoom sentUserMsg "101" 100 true
      "429 quota" ["He"] (by decide) (by decide)⟩
